import Mathlib

/-!
Shallow embedding of the dawaati event-management server core
(`server/routes.ts` + `server/storage.ts`): the identity store, role
hierarchy checks, event/guest/assignment records, the check-in state
machine and the audit trail, together with the HTTP route handlers that
the specification describes.

Roles are kept as the raw strings the code compares (`"super_admin"`,
`"admin"`, `"event_manager"`, `"organizer"`), timestamps as `Nat`, and the
database as in-memory lists of records.  Each `DatabaseStorage` method
becomes a pure function on `Storage`; each route handler becomes a
function from the resolved actor and request data to a result and the
updated `Storage`.
-/

namespace Dawaati

/-- An account row (`users` table): id, username, display name, hashed
password, role string, active flag, creator reference, event quota. -/
structure User where
  id : String
  username : String
  name : String
  password : String
  role : String
  isActive : Bool
  createdById : Option String
  eventQuota : Nat
  deriving Repr, DecidableEq

/-- An event row (`events` table); the date is kept as the raw request
string, the fields not read by any handler are omitted. -/
structure Event where
  id : String
  name : String
  eventManagerId : String
  date : String
  isActive : Bool
  deriving Repr, DecidableEq

/-- A guest row (`guests` table) with the check-in columns. -/
structure Guest where
  id : String
  eventId : String
  name : String
  phone : String
  category : String
  companions : Nat
  notes : String
  qrCode : String
  isCheckedIn : Bool
  checkedInAt : Option Nat
  checkedInBy : Option String
  deriving Repr, DecidableEq

/-- An organizer-to-event assignment row (`event_organizers` table). -/
structure EventOrganizer where
  eventId : String
  organizerId : String
  deriving Repr, DecidableEq

/-- An audit log row (`audit_logs` table). -/
structure AuditLog where
  eventId : String
  userId : String
  action : String
  details : String
  guestId : Option String
  deriving Repr, DecidableEq

/-- The persistent state: the five record kinds of the relational store. -/
structure Storage where
  users : List User
  events : List Event
  guests : List Guest
  eventOrganizers : List EventOrganizer
  auditLogs : List AuditLog
  deriving Repr, DecidableEq

/-- `DatabaseStorage.getUser`: first `users` row with the given id. -/
def getUser (st : Storage) (id : String) : Option User :=
  st.users.find? (fun u => u.id = id)

/-- `DatabaseStorage.getUserByUsername`: first row with the username. -/
def getUserByUsername (st : Storage) (username : String) : Option User :=
  st.users.find? (fun u => u.username = username)

/-- `DatabaseStorage.getEvent`: first `events` row with the given id. -/
def getEvent (st : Storage) (id : String) : Option Event :=
  st.events.find? (fun e => e.id = id)

/-- `DatabaseStorage.getGuest`: first `guests` row with the given id. -/
def getGuest (st : Storage) (id : String) : Option Guest :=
  st.guests.find? (fun g => g.id = id)

/-- `DatabaseStorage.getOrganizerEvents`: resolve the organizer's
assignments to events and keep only those that exist and are active. -/
def getOrganizerEvents (st : Storage) (organizerId : String) : List Event :=
  let assignments := st.eventOrganizers.filter (fun a => a.organizerId = organizerId)
  let eventList := assignments.map (fun a => getEvent st a.eventId)
  (eventList.filterMap id).filter (fun e => e.isActive = true)

/-- `DatabaseStorage.checkInGuest`: UNCONDITIONAL update of the guest row
with the given id (the SQL `where` clause matches on the id only, with no
"not already checked in" condition), returning the updated row. -/
def checkInGuest (st : Storage) (id : String) (organizerId : String) (now : Nat) :
    Option Guest × Storage :=
  let newGuests := st.guests.map (fun g =>
    if g.id = id then
      { g with isCheckedIn := true, checkedInAt := some now, checkedInBy := some organizerId }
    else g)
  (newGuests.find? (fun g => g.id = id), { st with guests := newGuests })

/-- `DatabaseStorage.assignOrganizer`: plain insert of the assignment row,
with no duplicate check and no lookup of the organizer id. -/
def assignOrganizer (st : Storage) (a : EventOrganizer) : EventOrganizer × Storage :=
  (a, { st with eventOrganizers := st.eventOrganizers ++ [a] })

/-- `DatabaseStorage.removeOrganizer`: delete every assignment row whose
(eventId, organizerId) pair matches. -/
def removeOrganizer (st : Storage) (eventId organizerId : String) : Storage :=
  { st with eventOrganizers :=
      st.eventOrganizers.filter (fun a =>
        ¬ (a.eventId = eventId ∧ a.organizerId = organizerId)) }

/-- `DatabaseStorage.createAuditLog`: append-only insert. -/
def createAuditLog (st : Storage) (log : AuditLog) : Storage :=
  { st with auditLogs := st.auditLogs ++ [log] }

/-- `requireRole(...roles)` middleware: the resolved actor's role must be
one of the listed role strings, otherwise the request is rejected. -/
def requireRoleCheck (roles : List String) (actor : User) : Bool :=
  roles.contains actor.role

/-! ## Authentication (`POST /api/auth/login`) -/

/-- Result of `POST /api/auth/login`. -/
inductive LoginResult where
  | missingFields
  | invalidCredentials
  | accountDisabled
  | success (u : User)
  deriving Repr, DecidableEq

/-- `POST /api/auth/login`: reject empty fields, look the username up,
compare the stored hash against `hash password`; an unknown username and
a hash mismatch take the same `invalidCredentials` branch, and only a
matching but inactive account yields `accountDisabled`.  The hash function
(`sha256` hex in the code) is passed as a parameter. -/
def loginHandler (hash : String → String) (st : Storage)
    (username password : String) : LoginResult :=
  if username = "" ∨ password = "" then .missingFields
  else
    let hashedPassword := hash password
    match getUserByUsername st username with
    | none => .invalidCredentials
    | some user =>
      if user.password ≠ hashedPassword then .invalidCredentials
      else if user.isActive = false then .accountDisabled
      else .success user

/-! ## Account creation (`POST /api/users`) -/

/-- The body of a `POST /api/users` request. -/
structure CreateUserReq where
  username : String
  password : String
  name : String
  role : String
  eventQuota : Nat
  deriving Repr, DecidableEq

/-- Modelled from the spec: `insertUserSchema` is defined in
`@shared/schema`, which is not among the sources; per the spec's data
model (§3) an account's role is one of the four role strings
super_admin, admin, event_manager, organizer, so validation accepts
exactly the requests whose role lies in that set. -/
def validateInsertUser (req : CreateUserReq) : Bool :=
  ["super_admin", "admin", "event_manager", "organizer"].contains req.role

/-- Result of `POST /api/users`. -/
inductive CreateUserResult where
  | forbidden
  | validationError
  | duplicateUsername
  | created (u : User)
  deriving Repr, DecidableEq

/-- `POST /api/users`: the role-hierarchy checks exactly as written —
target `admin` requires actor `super_admin`; target `event_manager`
requires actor `super_admin` or `admin`; target `organizer` requires
actor `event_manager`; any other target role (in particular
`super_admin`) passes through unchecked — then schema validation, the
duplicate-username check, and the insert with the hashed password and
`createdById` set to the current user. -/
def createUserHandler (hash : String → String) (st : Storage)
    (currentUser : User) (req : CreateUserReq) (newId : String) :
    CreateUserResult × Storage :=
  if req.role = "admin" ∧ currentUser.role ≠ "super_admin" then
    (.forbidden, st)
  else if req.role = "event_manager" ∧
      ¬ (["super_admin", "admin"].contains currentUser.role) then
    (.forbidden, st)
  else if req.role = "organizer" ∧ currentUser.role ≠ "event_manager" then
    (.forbidden, st)
  else if ¬ validateInsertUser req then
    (.validationError, st)
  else
    match getUserByUsername st req.username with
    | some _ => (.duplicateUsername, st)
    | none =>
      let newUser : User :=
        { id := newId
          username := req.username
          name := req.name
          password := hash req.password
          role := req.role
          isActive := true
          createdById := some currentUser.id
          eventQuota := req.eventQuota }
      (.created newUser, { st with users := st.users ++ [newUser] })

/-! ## Event creation (`POST /api/events`) -/

/-- Result of `POST /api/events`. -/
inductive CreateEventResult where
  | forbidden
  | validationError
  | created (e : Event)
  deriving Repr, DecidableEq

/-- `POST /api/events` behind `requireRole("event_manager")`: the date
field is kept only when present and non-empty (`req.body.date ? ... :
undefined`), then name and date are required (`!eventData.name ||
!eventData.date`), the event is inserted with `eventManagerId :=
actor.id` and `isActive := true`, and a `create_event` audit entry is
appended.  No quota field is ever consulted. -/
def createEventRoute (st : Storage) (actor : User)
    (name dateRaw : Option String) (newId : String) :
    CreateEventResult × Storage :=
  if ¬ requireRoleCheck ["event_manager"] actor then (.forbidden, st)
  else
    let dateVal : Option String :=
      match dateRaw with
      | none => none
      | some s => if s = "" then none else some s
    let nameVal := match name with | none => "" | some s => s
    if nameVal = "" ∨ dateVal = none then (.validationError, st)
    else
      let e : Event :=
        { id := newId
          name := nameVal
          eventManagerId := actor.id
          date := match dateVal with | some s => s | none => ""
          isActive := true }
      let st1 := { st with events := st.events ++ [e] }
      let st2 := createAuditLog st1
        { eventId := e.id
          userId := actor.id
          action := "create_event"
          details := "تم إنشاء المناسبة: " ++ e.name
          guestId := none }
      (.created e, st2)

/-! ## Guest check-in (`POST /api/guests/:id/check-in`) -/

/-- The three-way check-in outcome (plus the middleware/access 403). -/
inductive CheckInResult where
  | notAllowed
  | invalid
  | forbidden
  | duplicate (checkedInAt : Option Nat) (checkedInByName : String)
  | success (guest : Option Guest)
  deriving Repr, DecidableEq

/-- `checkedInByUser?.name || "غير معروف"`: resolve the original
checking-in account via the identity store, falling back to the
"unknown" marker when the reference is absent, unresolvable, or the
resolved display name is empty (JS falsy). -/
def resolveCheckedInBy (st : Storage) (g : Guest) : String :=
  match g.checkedInBy with
  | none => "غير معروف"
  | some uid =>
    match getUser st uid with
    | none => "غير معروف"
    | some u => if u.name = "" then "غير معروف" else u.name

/-- The check-in handler after the guest row has been read: the organizer
assignment check (organizers only — no ownership check exists for
event managers), the duplicate branch (no mutation, no audit entry),
and otherwise the unconditional update plus a `check_in` audit entry. -/
def checkInFinish (st : Storage) (actor : User) (guestId : String)
    (now : Nat) (snapshot : Option Guest) : CheckInResult × Storage :=
  match snapshot with
  | none => (.invalid, st)
  | some guest =>
    if actor.role = "organizer" ∧
        ¬ (getOrganizerEvents st actor.id).any (fun e => e.id = guest.eventId) then
      (.forbidden, st)
    else if guest.isCheckedIn then
      (.duplicate guest.checkedInAt (resolveCheckedInBy st guest), st)
    else
      let r := checkInGuest st guestId actor.id now
      let st2 := createAuditLog r.2
        { eventId := guest.eventId
          userId := actor.id
          action := "check_in"
          details := "تم تسجيل حضور: " ++ guest.name
          guestId := some guest.id }
      (.success r.1, st2)

/-- `POST /api/guests/:id/check-in` behind
`requireRole("organizer", "event_manager")`: read the guest row, then
run `checkInFinish` on the snapshot. -/
def checkInRoute (st : Storage) (actor : User) (guestId : String)
    (now : Nat) : CheckInResult × Storage :=
  if ¬ requireRoleCheck ["organizer", "event_manager"] actor then
    (.notAllowed, st)
  else
    checkInFinish st actor guestId now (getGuest st guestId)

/-! ### Interleaved execution of two concurrent check-in requests

The handler awaits the store between its read (`storage.getGuest`) and
its write (`storage.checkInGuest`), so two requests may interleave at
that boundary.  Each request is modelled as a two-step thread: step one
reads the guest snapshot from the current store, step two runs
`checkInFinish` on that (possibly stale) snapshot. -/

/-- One in-flight check-in request: the resolved actor, the guest id and
the request's wall-clock time. -/
structure ThreadCfg where
  actor : User
  guestId : String
  now : Nat
  deriving Repr

/-- Progress of one check-in request. -/
inductive TPhase where
  | ready
  | readDone (snapshot : Option Guest)
  | finished (r : CheckInResult)
  deriving Repr, DecidableEq

/-- Advance one request by one atomic store access. -/
def stepThread (st : Storage) (cfg : ThreadCfg) : TPhase → TPhase × Storage
  | .ready => (.readDone (getGuest st cfg.guestId), st)
  | .readDone snap =>
    let r := checkInFinish st cfg.actor cfg.guestId cfg.now snap
    (.finished r.1, r.2)
  | .finished r => (.finished r, st)

/-- Run two check-in requests under a schedule: `true` steps the first
thread, `false` the second. -/
def runSched (c1 c2 : ThreadCfg) :
    Storage → TPhase → TPhase → List Bool → TPhase × TPhase × Storage
  | st, p1, p2, [] => (p1, p2, st)
  | st, p1, p2, b :: rest =>
    if b then
      let s := stepThread st c1 p1
      runSched c1 c2 s.2 s.1 p2 rest
    else
      let s := stepThread st c2 p2
      runSched c1 c2 s.2 p1 s.1 rest

/-! ## Guest upload (`POST /api/events/:id/upload-guests`) -/

/-- One parsed spreadsheet row; `none` models a missing cell.  The
alternative Arabic/English header spellings the code coalesces with `||`
are collapsed into a single field per column. -/
structure UploadRow where
  name : Option String
  phone : Option String
  category : Option String
  companions : Option String
  notes : Option String
  deriving Repr, DecidableEq

/-- JS `.toLowerCase()` on the ASCII category strings: lowercase every
character.  (Defined over the character list so that it reduces by
computation; `String.toLower` in core is well-founded and does not.) -/
def jsToLower (s : String) : String :=
  String.mk (s.data.map Char.toLower)

/-- JS `cell || default` for string-valued cells: a missing cell and the
empty string are both falsy. -/
def jsOrD (o : Option String) (d : String) : String :=
  match o with
  | none => d
  | some s => if s = "" then d else s

/-- `parseInt(s) || 0` on the digit strings that occur in uploads:
decimal value of an all-digit string, the default otherwise.  (Written
over the character list so that it reduces by computation.) -/
def jsParseIntD (s : String) (d : Nat) : Nat :=
  if s.data ≠ [] ∧ s.data.all Char.isDigit then
    s.data.foldl (fun acc c => acc * 10 + (c.toNat - 48)) 0
  else d

/-- The per-row guest construction of the upload handler: missing name,
phone and notes become `""`; the category is the row's cell, `"regular"`
when the cell is missing or empty, LOWERCASED AS-IS (no recognized-value
check); check-in columns start at their schema defaults. -/
def rowToGuest (eventId newId qr : String) (row : UploadRow) : Guest :=
  { id := newId
    eventId := eventId
    name := jsOrD row.name ""
    phone := jsOrD row.phone ""
    category := jsToLower (jsOrD row.category "regular")
    companions := jsParseIntD (jsOrD row.companions "0") 0
    notes := jsOrD row.notes ""
    qrCode := qr
    isCheckedIn := false
    checkedInAt := none
    checkedInBy := none }

/-- Result of `POST /api/events/:id/upload-guests`. -/
inductive UploadResult where
  | forbidden
  | created (count : Nat) (guests : List Guest)
  deriving Repr, DecidableEq

/-- `POST /api/events/:id/upload-guests` behind
`requireRole("event_manager")`: `!event || event.eventManagerId !==
user.id` yields 403, otherwise every row is mapped to a guest
(`newIds`/`qrs` supply the generated ids and `randomUUID()` codes by row
index), the guests are inserted, and an `upload_guests` audit entry is
appended. -/
def uploadGuestsRoute (st : Storage) (actor : User) (eventId : String)
    (rows : List UploadRow) (newIds qrs : Nat → String) :
    UploadResult × Storage :=
  if ¬ requireRoleCheck ["event_manager"] actor then (.forbidden, st)
  else
    match getEvent st eventId with
    | none => (.forbidden, st)
    | some event =>
      if event.eventManagerId ≠ actor.id then (.forbidden, st)
      else
        let newGuests := rows.enum.map
          (fun p => rowToGuest eventId (newIds p.1) (qrs p.1) p.2)
        let st1 := { st with guests := st.guests ++ newGuests }
        let st2 := createAuditLog st1
          { eventId := eventId
            userId := actor.id
            action := "upload_guests"
            details := "تم رفع " ++ toString newGuests.length ++ " ضيف"
            guestId := none }
        (.created newGuests.length newGuests, st2)

/-! ## Organizer assignment (`POST /api/events/:id/organizers`) -/

/-- Result of `POST /api/events/:id/organizers`. -/
inductive AssignResult where
  | forbidden
  | assigned (a : EventOrganizer)
  deriving Repr, DecidableEq

/-- `POST /api/events/:id/organizers` behind
`requireRole("event_manager")`: `!event || event.eventManagerId !==
user.id` yields 403; otherwise the `organizerId` taken from the body is
stored via `assignOrganizer` with no lookup or role check of any kind. -/
def assignOrganizerRoute (st : Storage) (actor : User)
    (eventId organizerId : String) : AssignResult × Storage :=
  if ¬ requireRoleCheck ["event_manager"] actor then (.forbidden, st)
  else
    match getEvent st eventId with
    | none => (.forbidden, st)
    | some event =>
      if event.eventManagerId ≠ actor.id then (.forbidden, st)
      else
        let r := assignOrganizer st { eventId := eventId, organizerId := organizerId }
        (.assigned r.1, r.2)

/-- Number of stored assignment rows for one (event, organizer) pair. -/
def pairCount (st : Storage) (eventId organizerId : String) : Nat :=
  (st.eventOrganizers.filter (fun a =>
    a.eventId = eventId ∧ a.organizerId = organizerId)).length

/-! ## Concrete fixtures used by the closed theorems and witnesses -/

/-- An event manager owning event `e1`. -/
def uMgr1 : User :=
  { id := "m1", username := "mgr1", name := "Manager One", password := "h1",
    role := "event_manager", isActive := true, createdById := some "a1", eventQuota := 5 }

/-- A second, unrelated event manager (owns no event). -/
def uMgr2 : User :=
  { id := "m2", username := "mgr2", name := "Manager Two", password := "h2",
    role := "event_manager", isActive := true, createdById := some "a1", eventQuota := 5 }

/-- An organizer assigned to event `e1`. -/
def uOrg1 : User :=
  { id := "o1", username := "org1", name := "Org One", password := "h3",
    role := "organizer", isActive := true, createdById := some "m1", eventQuota := 0 }

/-- A second organizer assigned to event `e1`. -/
def uOrg2 : User :=
  { id := "o2", username := "org2", name := "Org Two", password := "h4",
    role := "organizer", isActive := true, createdById := some "m1", eventQuota := 0 }

/-- An active event owned by `uMgr1`. -/
def ev1 : Event :=
  { id := "e1", name := "Gala", eventManagerId := "m1", date := "2026-01-01",
    isActive := true }

/-- A guest of `e1` in the Invited state. -/
def g1 : Guest :=
  { id := "g1", eventId := "e1", name := "Alia", phone := "", category := "regular",
    companions := 0, notes := "", qrCode := "q1", isCheckedIn := false,
    checkedInAt := none, checkedInBy := none }

/-- Base store: two managers, two organizers assigned to `e1`, one
invited guest, no audit entries. -/
def st0 : Storage :=
  { users := [uMgr1, uMgr2, uOrg1, uOrg2]
    events := [ev1]
    guests := [g1]
    eventOrganizers := [{ eventId := "e1", organizerId := "o1" },
                        { eventId := "e1", organizerId := "o2" }]
    auditLogs := [] }

/-! ## Theorems -/

/-- Claim C1: CreateAccount is claimed to return Forbidden for every
(actor role, target role) pair outside the hierarchy table, in
particular for target role super_admin.  The code checks only the
target roles admin, event_manager and organizer, so a request for role
"super_admin" bypasses every hierarchy check: here an ORGANIZER creates
a super_admin account and the store grows by one user. -/
theorem createAccount_superAdmin_escalates :
    (createUserHandler (fun s => s ++ "#") st0 uOrg1
        { username := "root2", password := "p", name := "Evil",
          role := "super_admin", eventQuota := 0 } "u9").1 =
      CreateUserResult.created
        { id := "u9", username := "root2", name := "Evil", password := "p#",
          role := "super_admin", isActive := true, createdById := some "o1",
          eventQuota := 0 } ∧
    (createUserHandler (fun s => s ++ "#") st0 uOrg1
        { username := "root2", password := "p", name := "Evil",
          role := "super_admin", eventQuota := 0 } "u9").2.users.length =
      st0.users.length + 1 :=
  ⟨rfl, rfl⟩

/-- The guest row `g1` after a successful check-in by actor `who` at
time `t`. -/
def g1After (who : String) (t : Nat) : Guest :=
  { g1 with isCheckedIn := true, checkedInAt := some t, checkedInBy := some who }

/-- The outcome of two concurrent check-in requests on the invited guest
`g1` by the two assigned organizers, interleaved so that both read the
guest row before either writes: both reads, then both
`checkInFinish` steps. -/
def raceOutcome : TPhase × TPhase × Storage :=
  runSched { actor := uOrg1, guestId := "g1", now := 10 }
    { actor := uOrg2, guestId := "g1", now := 11 }
    st0 .ready .ready [true, false, true, false]

/-- Claim C2: two concurrent CheckIn calls on an Invited guest are
claimed to yield exactly one Success and one Duplicate with a single
check_in audit entry, the transition being an atomic conditional
update.  The code instead reads the guest and then performs an
UNCONDITIONAL update, so under the read-read-write-write interleaving
BOTH calls return Success, TWO check_in audit entries are written, and
the stored checkedInBy/checkedInAt are those of the second writer even
though the first call also reported Success. -/
theorem checkIn_race_double_success :
    raceOutcome.1 = .finished (.success (some (g1After "o1" 10))) ∧
    raceOutcome.2.1 = .finished (.success (some (g1After "o2" 11))) ∧
    raceOutcome.2.2.guests = [g1After "o2" 11] ∧
    (raceOutcome.2.2.auditLogs.filter (fun l => l.action = "check_in")).length = 2 :=
  ⟨rfl, rfl, rfl, rfl⟩

/-- Claim C3: a CheckIn by an event_manager that does not own the
guest's event is claimed to return Forbidden with the guest unchanged.
The code verifies access only for actors whose role is "organizer"; for
an event_manager no ownership check runs at all, so manager `m2`, who
does not own event `e1`, checks guest `g1` in successfully and the
stored guest row is mutated. -/
theorem checkIn_foreign_manager_succeeds :
    (checkInRoute st0 uMgr2 "g1" 7).1 =
      CheckInResult.success (some (g1After "m2" 7)) ∧
    (checkInRoute st0 uMgr2 "g1" 7).2.guests = [g1After "m2" 7] ∧
    ev1.eventManagerId ≠ uMgr2.id :=
  ⟨rfl, rfl, by decide⟩

/-- Claim C4: a CheckIn by an access-authorized actor on a guest already
CheckedIn returns Duplicate carrying the original timestamp and the
resolved name of the original checking-in actor, the store is returned
unchanged (no guest mutation, no audit entry), and the name resolves to
the unknown marker when the original account no longer exists. -/
theorem checkIn_duplicate_is_pure (st : Storage) (actor : User)
    (gid : String) (now : Nat) (g : Guest)
    (hrole : requireRoleCheck ["organizer", "event_manager"] actor = true)
    (hg : getGuest st gid = some g)
    (hci : g.isCheckedIn = true)
    (hacc : actor.role = "organizer" →
      (getOrganizerEvents st actor.id).any (fun e => e.id = g.eventId) = true) :
    checkInRoute st actor gid now =
      (CheckInResult.duplicate g.checkedInAt (resolveCheckedInBy st g), st) ∧
    (∀ uid, g.checkedInBy = some uid → getUser st uid = none →
      resolveCheckedInBy st g = "غير معروف") := by
  constructor
  · by_cases hr : actor.role = "organizer"
    · have hany := hacc hr
      simp [checkInRoute, checkInFinish, hrole, hg, hci, hr, hany]
    · simp [checkInRoute, checkInFinish, hrole, hg, hci, hr]
  · intro uid h1 h2
    simp [resolveCheckedInBy, h1, h2]

/-- A guest of `e1` already checked in at time 3 by an account id that
no longer resolves in the identity store. -/
def g2 : Guest :=
  { id := "g2", eventId := "e1", name := "Badr", phone := "", category := "vip",
    companions := 1, notes := "", qrCode := "q2", isCheckedIn := true,
    checkedInAt := some 3, checkedInBy := some "gone" }

/-- `st0` with the already-checked-in guest `g2` added. -/
def stDup : Storage := { st0 with guests := [g1, g2] }

/-- Witness for `checkIn_duplicate_is_pure`: manager `m1` re-scans the
already-checked-in guest `g2`, whose original checking-in account is
unresolvable, and receives Duplicate at timestamp 3 with the unknown
marker, the store unchanged. -/
theorem checkIn_duplicate_is_pure_witness :
    checkInRoute stDup uMgr1 "g2" 9 =
      (CheckInResult.duplicate (some 3) "غير معروف", stDup) := by
  have h := checkIn_duplicate_is_pure stDup uMgr1 "g2" 9 g2
    (by decide) (by decide) (by decide) (by decide)
  exact h.1.trans (by decide)

/-- Claim C5: an Authenticate call with an unknown username and one with
a known username but a non-matching password hash both return the same
InvalidCredentials outcome, and AccountDisabled arises exactly when the
username resolves, the hash matches, and the account is inactive. -/
theorem login_failure_indistinguishable (hash : String → String)
    (st : Storage) (u1 p1 u2 p2 : String) (acct : User)
    (hu1 : u1 ≠ "") (hp1 : p1 ≠ "")
    (hu2 : u2 ≠ "") (hp2 : p2 ≠ "")
    (hnone : getUserByUsername st u1 = none)
    (hsome : getUserByUsername st u2 = some acct)
    (hmiss : acct.password ≠ hash p2) :
    loginHandler hash st u1 p1 = LoginResult.invalidCredentials ∧
    loginHandler hash st u2 p2 = LoginResult.invalidCredentials ∧
    loginHandler hash st u1 p1 = loginHandler hash st u2 p2 ∧
    (∀ u p, loginHandler hash st u p = LoginResult.accountDisabled →
      ∃ a, getUserByUsername st u = some a ∧ a.password = hash p ∧
        a.isActive = false) := by
  have h1 : loginHandler hash st u1 p1 = LoginResult.invalidCredentials := by
    unfold loginHandler
    rw [if_neg (by simp [hu1, hp1]), hnone]
  have h2 : loginHandler hash st u2 p2 = LoginResult.invalidCredentials := by
    unfold loginHandler
    rw [if_neg (by simp [hu2, hp2]), hsome]
    simp [hmiss]
  refine ⟨h1, h2, h1.trans h2.symm, ?_⟩
  intro u p hd
  by_cases hup : u = "" ∨ p = ""
  · simp [loginHandler, hup] at hd
  · cases hfind : getUserByUsername st u with
    | none => simp [loginHandler, hup, hfind] at hd
    | some a =>
      by_cases hpw : a.password = hash p
      · by_cases hact : a.isActive = false
        · exact ⟨a, rfl, hpw, hact⟩
        · simp [loginHandler, hup, hfind, hpw, hact] at hd
      · simp [loginHandler, hup, hfind, hpw] at hd

/-- A disabled account with a known password hash, for the login
witness. -/
def uDisabled : User :=
  { id := "d1", username := "sleepy", name := "Sleepy", password := "pw#",
    role := "event_manager", isActive := false, createdById := some "a1",
    eventQuota := 5 }

/-- Store for the login witness: one active manager (hash of "right" is
"right#") and one disabled account. -/
def stLogin : Storage :=
  { st0 with users := [{ uMgr1 with password := "right#" }, uDisabled] }

/-- Witness for `login_failure_indistinguishable`: with the hash
function appending "#", the unknown username "nobody" and the known
username "mgr1" with wrong password give the same InvalidCredentials
result, while the disabled account with correct password gives
AccountDisabled, matching the characterization. -/
theorem login_failure_indistinguishable_witness :
    loginHandler (fun s => s ++ "#") stLogin "nobody" "x" =
      LoginResult.invalidCredentials ∧
    loginHandler (fun s => s ++ "#") stLogin "mgr1" "wrong" =
      LoginResult.invalidCredentials ∧
    (∃ a, getUserByUsername stLogin "sleepy" = some a ∧
      a.password = (fun s => s ++ "#") "pw" ∧ a.isActive = false) := by
  have h := login_failure_indistinguishable (fun s => s ++ "#") stLogin
    "nobody" "x" "mgr1" "wrong" { uMgr1 with password := "right#" }
    (by decide) (by decide) (by decide) (by decide)
    (by decide) (by decide) (by decide)
  refine ⟨h.1, h.2.1, ?_⟩
  exact h.2.2.2 "sleepy" "pw" (by decide)

/-- Claim C9: a CheckIn whose guest id resolves to no stored guest
returns the Invalid outcome with the store unchanged — never Duplicate,
never Success, nothing created or mutated. -/
theorem checkIn_unknown_guest_invalid (st : Storage) (actor : User)
    (gid : String) (now : Nat)
    (hrole : requireRoleCheck ["organizer", "event_manager"] actor = true)
    (hg : getGuest st gid = none) :
    checkInRoute st actor gid now = (CheckInResult.invalid, st) := by
  simp [checkInRoute, checkInFinish, hrole, hg]

/-- Witness for `checkIn_unknown_guest_invalid`: organizer `o1` scans
the unknown guest id "zz" and receives Invalid, the store unchanged. -/
theorem checkIn_unknown_guest_invalid_witness :
    checkInRoute st0 uOrg1 "zz" 7 = (CheckInResult.invalid, st0) :=
  checkIn_unknown_guest_invalid st0 uOrg1 "zz" 7 (by decide) (by decide)

/-- The event record `POST /api/events` inserts for a valid request:
given id, name, owning manager and date, active by construction. -/
def mkEvent (newId n mid d : String) : Event :=
  { id := newId, name := n, eventManagerId := mid, date := d, isActive := true }

/-- Claim C6: for an event_manager whose request carries a non-empty
name and date, CreateEvent returns the created event and appends it,
the outcome being identical under any two values of the actor's
eventQuota (no quota-based rejection exists anywhere on the path);
a missing or empty name or date yields ValidationError with the store
unchanged. -/
theorem createEvent_quota_not_enforced (st : Storage) (actor : User)
    (n d newId : String) (q q' : Nat)
    (hrole : actor.role = "event_manager") (hn : n ≠ "") (hd : d ≠ "") :
    (createEventRoute st actor (some n) (some d) newId).1 =
      CreateEventResult.created (mkEvent newId n actor.id d) ∧
    (createEventRoute st actor (some n) (some d) newId).2.events =
      st.events ++ [mkEvent newId n actor.id d] ∧
    createEventRoute st { actor with eventQuota := q } (some n) (some d) newId =
      createEventRoute st { actor with eventQuota := q' } (some n) (some d) newId ∧
    createEventRoute st actor none (some d) newId = (.validationError, st) ∧
    createEventRoute st actor (some "") (some d) newId = (.validationError, st) ∧
    createEventRoute st actor (some n) none newId = (.validationError, st) ∧
    createEventRoute st actor (some n) (some "") newId = (.validationError, st) := by
  refine ⟨?_, ?_, ?_, ?_, ?_, ?_, ?_⟩ <;>
    simp [createEventRoute, requireRoleCheck, createAuditLog, mkEvent, hrole, hn, hd]

/-- Witness for `createEvent_quota_not_enforced`: manager `m1` (quota 5,
already owning one event) creates a second event successfully; quota
values 0 and 100 give identical outcomes; dropping the name yields
ValidationError with the store unchanged. -/
theorem createEvent_quota_not_enforced_witness :
    (createEventRoute st0 uMgr1 (some "Expo") (some "2026-02-02") "e2").1 =
      CreateEventResult.created (mkEvent "e2" "Expo" "m1" "2026-02-02") ∧
    createEventRoute st0 { uMgr1 with eventQuota := 0 }
        (some "Expo") (some "2026-02-02") "e2" =
      createEventRoute st0 { uMgr1 with eventQuota := 100 }
        (some "Expo") (some "2026-02-02") "e2" ∧
    createEventRoute st0 uMgr1 none (some "2026-02-02") "e2" =
      (.validationError, st0) := by
  have h := createEvent_quota_not_enforced st0 uMgr1 "Expo" "2026-02-02" "e2"
    0 100 (by decide) (by decide) (by decide)
  exact ⟨h.1, h.2.2.1, h.2.2.2.1⟩

/-- An upload row whose category cell holds the unrecognized string
"banana". -/
def rowBanana : UploadRow :=
  { name := some "Aziz", phone := none, category := some "banana",
    companions := none, notes := none }

/-- The guest the upload handler builds from `rowBanana`. -/
def gBanana : Guest := rowToGuest "e1" "gB" "qB" rowBanana

/-- Counterexample to claim C7 as stated: the upload handler does NOT
default unrecognized category strings to "regular" — a row whose
category cell is "banana" produces a stored guest whose category is
"banana". -/
theorem upload_unknown_category_kept :
    (uploadGuestsRoute st0 uMgr1 "e1" [rowBanana]
        (fun _ => "gB") (fun _ => "qB")).1 =
      UploadResult.created 1 [gBanana] ∧
    gBanana.category = "banana" ∧
    gBanana.category ≠ "regular" :=
  ⟨by decide, by decide, by decide⟩

/-- Claim C7 amended: on an authorized upload every row becomes a guest
via the fixed field mapping — a missing name or phone cell becomes the
empty string, the category cell is lowercased ("VIP" becomes "vip"), a
missing category cell becomes "regular", and any present non-empty
category string is stored lowercased AS-IS (unrecognized strings are
not defaulted to "regular"). -/
theorem upload_row_field_mapping (st : Storage) (actor : User)
    (eid : String) (ev : Event) (rows : List UploadRow)
    (newIds qrs : Nat → String)
    (hrole : actor.role = "event_manager")
    (hev : getEvent st eid = some ev)
    (hown : ev.eventManagerId = actor.id) :
    (uploadGuestsRoute st actor eid rows newIds qrs).1 =
      UploadResult.created rows.length
        (rows.enum.map (fun p => rowToGuest eid (newIds p.1) (qrs p.1) p.2)) ∧
    (∀ nid qr (row : UploadRow), row.name = none →
      (rowToGuest eid nid qr row).name = "") ∧
    (∀ nid qr (row : UploadRow), row.phone = none →
      (rowToGuest eid nid qr row).phone = "") ∧
    (∀ nid qr (row : UploadRow), row.category = some "VIP" →
      (rowToGuest eid nid qr row).category = "vip") ∧
    (∀ nid qr (row : UploadRow), row.category = none →
      (rowToGuest eid nid qr row).category = "regular") ∧
    (∀ nid qr (row : UploadRow) (s : String), row.category = some s → s ≠ "" →
      (rowToGuest eid nid qr row).category = jsToLower s) := by
  refine ⟨?_, ?_, ?_, ?_, ?_, ?_⟩
  · simp [uploadGuestsRoute, requireRoleCheck, createAuditLog, hrole, hev, hown]
  · intro nid qr row h
    simp [rowToGuest, jsOrD, h]
  · intro nid qr row h
    simp [rowToGuest, jsOrD, h]
  · intro nid qr row h
    simp [rowToGuest, jsOrD, h]
    decide
  · intro nid qr row h
    simp [rowToGuest, jsOrD, h]
    decide
  · intro nid qr row s h hs
    simp [rowToGuest, jsOrD, h, hs]

/-- Witness for `upload_row_field_mapping`: manager `m1` uploads the
single row `rowBanana` to the event it owns; the handler reports one
created guest, and the mapping normalizes "VIP" to "vip" and a missing
category to "regular" on concrete rows. -/
theorem upload_row_field_mapping_witness :
    (uploadGuestsRoute st0 uMgr1 "e1" [rowBanana]
        (fun _ => "gB") (fun _ => "qB")).1 =
      UploadResult.created 1 [gBanana] ∧
    (rowToGuest "e1" "gV" "qV" { rowBanana with category := some "VIP" }).category =
      "vip" ∧
    (rowToGuest "e1" "gN" "qN" { rowBanana with category := none }).category =
      "regular" ∧
    (rowToGuest "e1" "gN" "qN" { rowBanana with name := none }).name = "" := by
  have h := upload_row_field_mapping st0 uMgr1 "e1" ev1 [rowBanana]
    (fun _ => "gB") (fun _ => "qB") (by decide) (by decide) (by decide)
  refine ⟨h.1, ?_, ?_, ?_⟩
  · exact h.2.2.2.1 "gV" "qV" { rowBanana with category := some "VIP" } rfl
  · exact h.2.2.2.2.1 "gN" "qN" { rowBanana with category := none } rfl
  · exact h.2.1 "gN" "qN" { rowBanana with name := none } rfl

/-- The store after the owning manager assigns organizer id "o3" to
event `e1` twice in a row through the route. -/
def stTwoAssigns : Storage :=
  (assignOrganizerRoute (assignOrganizerRoute st0 uMgr1 "e1" "o3").2
    uMgr1 "e1" "o3").2

/-- Counterexample to claim C8 as stated: calling AssignOrganizer twice
with the same (event, organizer) pair leaves TWO stored assignment rows
for the pair, not at most one — the insert performs no duplicate
check. -/
theorem assign_duplicate_pair_two_records :
    pairCount st0 "e1" "o3" = 0 ∧
    pairCount stTwoAssigns "e1" "o3" = 2 ∧
    ¬ pairCount stTwoAssigns "e1" "o3" ≤ 1 :=
  ⟨by decide, by decide, by decide⟩

/-- Claim C8 amended: the assignment store does not maintain pair
uniqueness — each successful AssignOrganizer call appends exactly one
row for its (eventId, organizerId) pair, so repeated calls accumulate
duplicates; RemoveOrganizer deletes every row for the pair. -/
theorem assign_appends_one_pair_record (st : Storage) (actor : User)
    (eid oid : String) (ev : Event)
    (hrole : actor.role = "event_manager")
    (hev : getEvent st eid = some ev)
    (hown : ev.eventManagerId = actor.id) :
    pairCount (assignOrganizerRoute st actor eid oid).2 eid oid =
      pairCount st eid oid + 1 ∧
    pairCount (removeOrganizer st eid oid) eid oid = 0 := by
  constructor
  · simp [assignOrganizerRoute, requireRoleCheck, hrole, hev, hown,
      assignOrganizer, pairCount, List.filter_append]
  · simp only [pairCount, removeOrganizer, List.length_eq_zero]
    rw [List.filter_eq_nil_iff]
    intro a ha
    have h2 := (List.mem_filter.mp ha).2
    simp at h2 ⊢
    intro he
    rcases h2 with h2 | h2
    · exact absurd he h2
    · exact h2

/-- Witness for `assign_appends_one_pair_record`: the owning manager
assigns "o3" to `e1` on the base store — the pair's row count goes from
0 to 1 — and removal empties it. -/
theorem assign_appends_one_pair_record_witness :
    pairCount (assignOrganizerRoute st0 uMgr1 "e1" "o3").2 "e1" "o3" =
      pairCount st0 "e1" "o3" + 1 ∧
    pairCount (removeOrganizer st0 "e1" "o3") "e1" "o3" = 0 :=
  assign_appends_one_pair_record st0 uMgr1 "e1" "o3" ev1
    (by decide) (by decide) (by decide)

/-- Membership in `getOrganizerEvents`: any stored assignment for the
organizer whose event resolves and is active contributes that event. -/
theorem mem_getOrganizerEvents_of (st : Storage) (oid : String)
    (a : EventOrganizer) (ev : Event)
    (ha : a ∈ st.eventOrganizers) (hao : a.organizerId = oid)
    (hae : getEvent st a.eventId = some ev) (hact : ev.isActive = true) :
    ev ∈ getOrganizerEvents st oid := by
  unfold getOrganizerEvents
  apply List.mem_filter.mpr
  refine ⟨?_, by simp [hact]⟩
  apply List.mem_filterMap.mpr
  refine ⟨some ev, ?_, rfl⟩
  apply List.mem_map.mpr
  exact ⟨a, List.mem_filter.mpr ⟨ha, by simp [hao]⟩, hae⟩

/-- Claim C10: AssignOrganizer validates nothing about the organizerId —
for ANY string (the theorem quantifies over all of them, including ids
resolving to no account or to accounts of other roles), a call by the
event's owning manager stores the assignment, and when the event is
active that id's assigned-events query thereafter contains the event,
which is exactly the check-in access test. -/
theorem assignOrganizer_accepts_any_id (st : Storage) (actor : User)
    (eid oid : String) (ev : Event)
    (hrole : actor.role = "event_manager")
    (hev : getEvent st eid = some ev)
    (hown : ev.eventManagerId = actor.id) :
    assignOrganizerRoute st actor eid oid =
      (AssignResult.assigned { eventId := eid, organizerId := oid },
        { st with eventOrganizers :=
            st.eventOrganizers ++ [{ eventId := eid, organizerId := oid }] }) ∧
    (ev.isActive = true →
      ev ∈ getOrganizerEvents
        { st with eventOrganizers :=
            st.eventOrganizers ++ [{ eventId := eid, organizerId := oid }] } oid) := by
  constructor
  · simp [assignOrganizerRoute, requireRoleCheck, hrole, hev, hown, assignOrganizer]
  · intro hact
    exact mem_getOrganizerEvents_of _ _ { eventId := eid, organizerId := oid } ev
      (by simp) rfl hev hact

/-- Witness for `assignOrganizer_accepts_any_id`: the owning manager
assigns the id "ghost", which resolves to no account at all; the
assignment is stored and "ghost" gains the active event `e1` in its
assigned-events query. -/
theorem assignOrganizer_accepts_any_id_witness :
    assignOrganizerRoute st0 uMgr1 "e1" "ghost" =
      (AssignResult.assigned { eventId := "e1", organizerId := "ghost" },
        { st0 with eventOrganizers :=
            st0.eventOrganizers ++ [{ eventId := "e1", organizerId := "ghost" }] }) ∧
    getUser st0 "ghost" = none ∧
    ev1 ∈ getOrganizerEvents
      { st0 with eventOrganizers :=
          st0.eventOrganizers ++ [{ eventId := "e1", organizerId := "ghost" }] } "ghost" := by
  have h := assignOrganizer_accepts_any_id st0 uMgr1 "e1" "ghost" ev1
    (by decide) (by decide) (by decide)
  exact ⟨h.1, by decide, h.2 (by decide)⟩

end Dawaati
